import Mathlib

/-!
Verification of uq: the HTTP entry and the process bootstrap.

Shallow embedding of `src/entry/httpEntry.go` (the four HTTP handlers) and of
the storage selection at the top of `main` in `src/uq.go`.

The queue engine (`queue.MessageQueue`) is an interface whose implementation is
not part of these files; it is a record of state-passing operations over an
arbitrary engine state `σ`.  Every call a handler makes to the engine is
recorded, in order, in the context's `calls` list.
-/

namespace UQ

/-- Raw bytes, Go's `[]byte`. -/
abbrev Bytes := List UInt8

/-- Go `error` value, identified by the text its `Error()` method returns.
A nil error is `none : Option GoError`. -/
structure GoError where
  text : String
deriving DecidableEq, Repr

/-- Modelled from the spec: the type `queue.CreateRequest`, declared in the
queue package; section 3 gives `{TopicName, LineName(optional), Recycle(duration)}`. -/
structure CreateRequest where
  TopicName : String
  LineName : String
  Recycle : Int
deriving DecidableEq, Repr

/-- Modelled from the spec: the type `queue.ConfirmRequest`, declared in the
queue package; section 3 gives `{TopicName, LineName, MessageID}`. -/
structure ConfirmRequest where
  TopicName : String
  LineName : String
  MessageID : Nat
deriving DecidableEq, Repr

/-- The interface `queue.MessageQueue` as the handlers use it: each method
takes the engine state and returns its Go results with the next state.
`Pop` returns the triple `(id, data, err)`. -/
structure MessageQueue (σ : Type) where
  Create : CreateRequest → σ → Option GoError × σ
  Push : String → Bytes → σ → Option GoError × σ
  Pop : String → σ → (Nat × Bytes × Option GoError) × σ
  Confirm : ConfirmRequest → σ → Option GoError × σ

/-- One recorded invocation of an engine method, with its arguments. -/
inductive EngineCall where
  | Create (cr : CreateRequest)
  | Push (topic : String) (data : Bytes)
  | Pop (key : String)
  | Confirm (cr : ConfirmRequest)
deriving DecidableEq, Repr

/-- The `http.ResponseWriter` of one request: header map, the status passed to
the first `WriteHeader` (none while no header has been written) and the body
bytes written so far. -/
structure ResponseWriter where
  header : List (String × String)
  status : Option Nat
  body : Bytes
deriving DecidableEq, Repr

/-- Everything a handler can change: the engine state, the engine calls made,
the lines given to `log.Printf`, and the response. -/
structure Ctx (σ : Type) where
  engine : σ
  calls : List EngineCall
  log : List String
  w : ResponseWriter

/-- Context at the start of a request: untouched response, nothing called or logged. -/
def Ctx.fresh {σ : Type} (s : σ) : Ctx σ :=
  { engine := s, calls := [], log := [], w := { header := [], status := none, body := [] } }

/-- Go `http.Header.Set`: replaces the value stored under the key. -/
def headerSet (hd : List (String × String)) (k v : String) : List (String × String) :=
  (k, v) :: hd.filter (fun p => p.1 != k)

/-- Go `http.Header.Get`: the value stored under the key, if any. -/
def headerGet (hd : List (String × String)) (k : String) : Option String :=
  (hd.find? (fun p => p.1 == k)).map Prod.snd

/-- Go `w.Header().Set(k, v)`. -/
def Ctx.Set {σ : Type} (c : Ctx σ) (k v : String) : Ctx σ :=
  { c with w := { c.w with header := headerSet c.w.header k v } }

/-- Go `w.WriteHeader(code)`: only the first call fixes the status. -/
def Ctx.WriteHeader {σ : Type} (c : Ctx σ) (code : Nat) : Ctx σ :=
  match c.w.status with
  | none => { c with w := { c.w with status := some code } }
  | some _ => c

/-- Go `w.Write(data)`: writes the header with 200 if none was written, then the bytes. -/
def Ctx.Write {σ : Type} (c : Ctx σ) (data : Bytes) : Ctx σ :=
  let c := c.WriteHeader 200
  { c with w := { c.w with body := c.w.body ++ data } }

/-- Go `log.Printf`, recording the formatted message. -/
def Ctx.Printf {σ : Type} (c : Ctx σ) (msg : String) : Ctx σ :=
  { c with log := c.log ++ [msg] }

/-- Bytes of a Go string. -/
def stringBytes (s : String) : Bytes := s.toUTF8.toList

/-- Go `http.Error(w, error, code)`: sets the two headers, writes the status and
then the text followed by a newline. -/
def httpError {σ : Type} (c : Ctx σ) (error : String) (code : Nat) : Ctx σ :=
  let c := c.Set "Content-Type" "text/plain; charset=utf-8"
  let c := c.Set "X-Content-Type-Options" "nosniff"
  let c := c.WriteHeader code
  c.Write (stringBytes (error ++ "\n"))

def StatusOK : Nat := 200
def StatusNoContent : Nat := 204
def StatusBadRequest : Nat := 400
def StatusNotFound : Nat := 404
def StatusInternalServerError : Nat := 500

/-- Digit character of a value below ten. -/
def digitChar (d : Nat) : Char := Char.ofNat (48 + d)

/-- Digit loop of `strconv.formatBits` for base 10: digits are produced from the
least significant end into the front of the buffer. A `uint64` has at most 20
digits, which bounds the loop. -/
def formatBits : Nat → Nat → List Char → List Char
  | 0, _, acc => acc
  | fuel + 1, u, acc =>
    if u < 10 then digitChar u :: acc
    else formatBits fuel (u / 10) (digitChar (u % 10) :: acc)

/-- Go `strconv.FormatUint(i, 10)`. -/
def FormatUint (i : Nat) : String := String.mk (formatBits 20 i [])

/-- Digit loop of `strconv.ParseUint(s, 10, 64)`: fails on a non-digit and on a
value that does not fit 64 bits. -/
def parseLoop : Nat → List Char → Option Nat
  | n, [] => some n
  | n, c :: cs =>
    if c.isDigit then
      let n1 := n * 10 + (c.toNat - 48)
      if n1 < 2 ^ 64 then parseLoop n1 cs else none
    else none

/-- Go `strconv.ParseUint(s, 10, 64)`: the empty string is a syntax error. -/
def ParseUint (s : String) : Option Nat :=
  match s.data with
  | [] => none
  | cs => parseLoop 0 cs

/-- The request body `req.Body` as a stream: it delivers `data` and then ends,
with `io.EOF` when `err` is none and with the error `err` otherwise. -/
structure Body where
  data : Bytes
  err : Option GoError
deriving DecidableEq, Repr

/-- The part of `*http.Request` the handlers read: the route variables of
`mux.Vars(req)` and the body. -/
structure Request where
  vars : List (String × String)
  body : Body

/-- Indexing the map `mux.Vars(req)`: the zero value for a missing key. -/
def Request.var (req : Request) (k : String) : String :=
  ((req.vars.find? (fun p => p.1 == k)).map Prod.snd).getD ""

/-- Go `fmt.Sprintf("%s/%s", t, l)`. -/
def popKey (t l : String) : String := t ++ "/" ++ l

/-- The struct `HttpEntry`, with the fields the handlers use. -/
structure HttpEntry (σ : Type) where
  maxBodyLength : Nat
  messageQueue : MessageQueue σ

/-- Go `h.messageQueue.Pop(key)`, recorded. -/
def Ctx.Pop {σ : Type} (c : Ctx σ) (mq : MessageQueue σ) (key : String) :
    (Nat × Bytes × Option GoError) × Ctx σ :=
  let r := mq.Pop key c.engine
  (r.1, { c with engine := r.2, calls := c.calls ++ [EngineCall.Pop key] })

/-- Go `HttpEntry.popHandler`. -/
def popHandler {σ : Type} (h : HttpEntry σ) (req : Request) (c : Ctx σ) : Ctx σ :=
  let t := req.var "topic"
  let l := req.var "line"
  let key := popKey t l
  let r := c.Pop h.messageQueue key
  let id := r.1.1
  let data := r.1.2.1
  let err := r.1.2.2
  let c := r.2
  if err.isSome || data.length ≤ 0 then
    httpError c "404 Not Found!" StatusNotFound
  else
    let c := c.Set "Content-Type" "text/plain"
    let c := c.Set "X-UQ-MessageID" (FormatUint id)
    let c := c.WriteHeader StatusOK
    c.Write data

/-- Error result of one `Read` call: `io.EOF` or another error. -/
inductive ReadErr where
  | EOF
  | other (e : GoError)
deriving DecidableEq, Repr

/-- Go `Read(p)` on the body with `len(p) = k`: up to `k` of the remaining bytes
with a nil error, and once no byte remains zero bytes with the final error. -/
def Body.Read (b : Body) (k : Nat) : (Bytes × Option ReadErr) × Body :=
  match b.data with
  | [] =>
    match b.err with
    | none => (([], some ReadErr.EOF), b)
    | some e => (([], some (ReadErr.other e)), b)
  | _ :: _ => ((b.data.take k, none), { b with data := b.data.drop k })

/-- The reader of `ioutils.NewLimitedBufferReader(r, n)` (etcd `pkg/ioutils`):
it keeps the underlying reader and the number `n`. -/
structure limitedBufferReader where
  r : Body
  n : Nat
deriving DecidableEq, Repr

def NewLimitedBufferReader (r : Body) (n : Nat) : limitedBufferReader := { r := r, n := n }

/-- Go `limitedBufferReader.Read(p)` with `len(p) = k`: the buffer handed to the
underlying reader is cut to `n` bytes when it is longer
(`if len(np) > r.n { np = np[:r.n] }; return r.r.Read(np)`). -/
def limitedBufferReader.Read (lr : limitedBufferReader) (k : Nat) :
    (Bytes × Option ReadErr) × limitedBufferReader :=
  let np := if k > lr.n then lr.n else k
  let res := lr.r.Read np
  (res.1, { lr with r := res.2 })

/-- Free space `bytes.MinRead` that `ioutil.ReadAll` offers to each `Read`. -/
def MinRead : Nat := 512

/-- Loop of `ioutil.ReadAll`: read into the free space, append what was read,
stop with a nil error at `io.EOF` and with the error at any other error.
Each round offers `MinRead` bytes of free space (the buffer keeps at least that
much). The result is none when the loop has not ended within the given number
of rounds. -/
def readAllLoop : Nat → limitedBufferReader → Bytes → Option (Bytes × Option GoError)
  | 0, _, _ => none
  | fuel + 1, lr, buf =>
    let res := lr.Read MinRead
    let buf1 := buf ++ res.1.1
    match res.1.2 with
    | some ReadErr.EOF => some (buf1, none)
    | some (ReadErr.other e) => some (buf1, some e)
    | none => readAllLoop fuel res.2 buf1

/-- Go `ioutil.ReadAll(limitedr)`. One round per byte of the body and one for the
end of the stream are enough whenever a round makes progress. -/
def ReadAll (lr : limitedBufferReader) : Option (Bytes × Option GoError) :=
  readAllLoop (lr.r.data.length + 1) lr []

/-- Go `json.Unmarshal` into a fresh `CreateRequest` and into a fresh
`ConfirmRequest`: the decoded value, or the decoder's error. -/
structure Json where
  UnmarshalCreate : Bytes → Except GoError CreateRequest
  UnmarshalConfirm : Bytes → Except GoError ConfirmRequest

/-- Go `h.messageQueue.Create(cr)`, recorded. -/
def Ctx.Create {σ : Type} (c : Ctx σ) (mq : MessageQueue σ) (cr : CreateRequest) :
    Option GoError × Ctx σ :=
  let r := mq.Create cr c.engine
  (r.1, { c with engine := r.2, calls := c.calls ++ [EngineCall.Create cr] })

/-- Go `h.messageQueue.Push(t, data)`, recorded. -/
def Ctx.Push {σ : Type} (c : Ctx σ) (mq : MessageQueue σ) (t : String) (data : Bytes) :
    Option GoError × Ctx σ :=
  let r := mq.Push t data c.engine
  (r.1, { c with engine := r.2, calls := c.calls ++ [EngineCall.Push t data] })

/-- Go `h.messageQueue.Confirm(cr)`, recorded. -/
def Ctx.Confirm {σ : Type} (c : Ctx σ) (mq : MessageQueue σ) (cr : ConfirmRequest) :
    Option GoError × Ctx σ :=
  let r := mq.Confirm cr c.engine
  (r.1, { c with engine := r.2, calls := c.calls ++ [EngineCall.Confirm cr] })

/-- Go `HttpEntry.createHandler`. The result is none when `ReadAll` does not return. -/
def createHandler {σ : Type} (js : Json) (h : HttpEntry σ) (req : Request) (c : Ctx σ) :
    Option (Ctx σ) :=
  let limitedr := NewLimitedBufferReader req.body h.maxBodyLength
  match ReadAll limitedr with
  | none => none
  | some (data, err) =>
    if err.isSome then
      some (httpError c "400 Bad Request!" StatusBadRequest)
    else
      match js.UnmarshalCreate data with
      | Except.error e =>
        let c := c.Printf ("create error: " ++ e.text)
        some (httpError c "400 Bad Request!" StatusBadRequest)
      | Except.ok cr =>
        let r := c.Create h.messageQueue cr
        match r.1 with
        | some e =>
          let c := r.2.Printf ("create error: " ++ e.text)
          some (httpError c "500 Bad Request!" StatusInternalServerError)
        | none => some (r.2.WriteHeader StatusNoContent)

/-- Go `HttpEntry.pushHandler`. The result is none when `ReadAll` does not return. -/
def pushHandler {σ : Type} (h : HttpEntry σ) (req : Request) (c : Ctx σ) : Option (Ctx σ) :=
  let t := req.var "topic"
  let limitedr := NewLimitedBufferReader req.body h.maxBodyLength
  match ReadAll limitedr with
  | none => none
  | some (data, err) =>
    if err.isSome then
      some (httpError c "400 Bad Request!" StatusBadRequest)
    else
      let r := c.Push h.messageQueue t data
      match r.1 with
      | some e =>
        let c := r.2.Printf ("push error: " ++ e.text)
        some (httpError c "500 Bad Request!" StatusInternalServerError)
      | none => some (r.2.WriteHeader StatusNoContent)

/-- Go `HttpEntry.confirmHandler`. The result is none when `ReadAll` does not return. -/
def confirmHandler {σ : Type} (js : Json) (h : HttpEntry σ) (req : Request) (c : Ctx σ) :
    Option (Ctx σ) :=
  let limitedr := NewLimitedBufferReader req.body h.maxBodyLength
  match ReadAll limitedr with
  | none => none
  | some (data, err) =>
    if err.isSome then
      some (httpError c "400 Bad Request!" StatusBadRequest)
    else
      match js.UnmarshalConfirm data with
      | Except.error e =>
        let c := c.Printf ("confirm error: " ++ e.text)
        some (httpError c "400 Bad Request!" StatusBadRequest)
      | Except.ok cr =>
        let r := c.Confirm h.messageQueue cr
        match r.1 with
        | some e =>
          let c := r.2.Printf ("confirm error: " ++ e.text)
          some (httpError c "500 Bad Request!" StatusInternalServerError)
        | none => some (r.2.WriteHeader StatusNoContent)

/-- The flags of `src/uq.go` that the start of `main` reads. -/
structure Flags where
  ip : String
  port : Int
  db : String
  dir : String
  etcd : String
  cluster : String

/-- The constructors `main` calls, from packages outside these files. A Go
result pair `(value, err)` is a pair of options, none being nil. `dbpath` is
`path.Clean(path.Join(dir, "uq.db"))`. -/
structure Boot (S Q : Type) where
  dbpath : String → String
  NewLevelStore : String → Option S × Option GoError
  NewMemStore : Option S × Option GoError
  NewUnitedQueue : Option S → String → Int → List String → String → Option Q × Option GoError

/-- What `main` does that can be observed, in order. -/
inductive BootEvent (S : Type) where
  | fmtPrintf (s : String)
  | logPrintf (s : String)
  | NewLevelStore (dbpath : String)
  | NewMemStore
  | NewUnitedQueue (storage : Option S)
  | storageClose
deriving DecidableEq, Repr

/-- The function `main` of `src/uq.go` from `flag.Parse()` to the end of the
queue construction (lines 55 to 82): the events so far, and the queue when
`main` goes on, none when it has returned. -/
def main {S Q : Type} (env : Boot S Q) (f : Flags) : List (BootEvent S) × Option (Option Q) :=
  let ev : List (BootEvent S) := [BootEvent.fmtPrintf "uq started! 😄\n"]
  let sel : (Option S × Option GoError) × List (BootEvent S) :=
    if f.db = "leveldb" then
      let dbpath := env.dbpath f.dir
      (env.NewLevelStore dbpath,
        ev ++ [BootEvent.logPrintf ("dbpath: " ++ dbpath), BootEvent.NewLevelStore dbpath])
    else if f.db = "memdb" then
      (env.NewMemStore, ev ++ [BootEvent.NewMemStore])
    else ((none, none), ev)
  let storage := sel.1.1
  let err := sel.1.2
  let ev := sel.2
  match err with
  | some e => (ev ++ [BootEvent.fmtPrintf ("store init error: " ++ e.text ++ "\n")], none)
  | none =>
    let etcdServers : List String := if f.etcd ≠ "" then f.etcd.splitOn "," else []
    let r := env.NewUnitedQueue storage f.ip f.port etcdServers f.cluster
    let ev := ev ++ [BootEvent.NewUnitedQueue storage]
    match r.2 with
    | some e =>
      (ev ++ [BootEvent.fmtPrintf ("queue init error: " ++ e.text ++ "\n"), BootEvent.storageClose],
        none)
    | none => (ev, some r.1)

/-- Go `NewHttpEntry`: the constant `MaxBodyLength` of the entry package, declared
outside these files, is its first argument. -/
def NewHttpEntry {σ : Type} (MaxBodyLength : Nat) (messageQueue : MessageQueue σ) : HttpEntry σ :=
  { maxBodyLength := MaxBodyLength, messageQueue := messageQueue }

/-- The response `http.Error(w, "404 Not Found!", 404)` leaves on an untouched writer. -/
def notFoundResponse : ResponseWriter :=
  { header := [("X-Content-Type-Options", "nosniff"), ("Content-Type", "text/plain; charset=utf-8")]
    status := some 404
    body := stringBytes "404 Not Found!\n" }

/-- The response `http.Error(w, "500 Bad Request!", 500)` leaves on an untouched writer. -/
def internalErrorResponse : ResponseWriter :=
  { header := [("X-Content-Type-Options", "nosniff"), ("Content-Type", "text/plain; charset=utf-8")]
    status := some 500
    body := stringBytes "500 Bad Request!\n" }

/-! ## Fixtures for concrete evaluations -/

/-- An engine with fixed results: every method returns the given error, `Pop`
the given triple; the state counts the calls. -/
def fixedQueue (e : Option GoError) (pop : Nat × Bytes × Option GoError) : MessageQueue Nat :=
  { Create := fun _ s => (e, s + 1)
    Push := fun _ _ s => (e, s + 1)
    Pop := fun _ s => (pop, s + 1)
    Confirm := fun _ s => (e, s + 1) }

/-- A decoder that accepts exactly the empty byte string. -/
def emptyOnlyJson : Json :=
  { UnmarshalCreate := fun b =>
      match b with
      | [] => Except.ok { TopicName := "foo", LineName := "x", Recycle := 10 }
      | _ :: _ => Except.error { text := "invalid character" }
    UnmarshalConfirm := fun b =>
      match b with
      | [] => Except.ok { TopicName := "foo", LineName := "x", MessageID := 1 }
      | _ :: _ => Except.error { text := "invalid character" } }

/-- The request `/pop/foo/x` or `/push/foo` with the given body bytes. -/
def fooRequest (data : Bytes) : Request :=
  { vars := [("topic", "foo"), ("line", "x")], body := { data := data, err := none } }

/-- The flags at their defaults of `init`, except the given value of `-db`. -/
def defaultFlags (db : String) : Flags :=
  { ip := "127.0.0.1", port := 8808, db := db, dir := "./data", etcd := "", cluster := "uq" }

/-- Constructors that always succeed, with numbers for the storage and the queue. -/
def demoBoot : Boot Nat Nat :=
  { dbpath := fun dir => dir ++ "/uq.db"
    NewLevelStore := fun _ => (some 1, none)
    NewMemStore := (some 2, none)
    NewUnitedQueue := fun _ _ _ _ _ => (some 3, none) }

/-! ## Lemmas on the library models -/

theorem readAllLoop_eq (n : Nat) (hn : 0 < n) (err : Option GoError) :
    ∀ (fuel : Nat) (data buf : Bytes), data.length < fuel →
      readAllLoop fuel { r := { data := data, err := err }, n := n } buf
        = some (buf ++ data, err) := by
  intro fuel
  induction fuel with
  | zero => intro data buf h; omega
  | succ k ih =>
    intro data buf h
    cases data with
    | nil =>
      cases err <;> simp [readAllLoop, limitedBufferReader.Read, Body.Read]
    | cons x xs =>
      have hnp : 0 < (if MinRead > n then n else MinRead) := by
        unfold MinRead; split <;> omega
      obtain ⟨m, hm⟩ : ∃ m, (if MinRead > n then n else MinRead) = m + 1 :=
        ⟨(if MinRead > n then n else MinRead) - 1, by omega⟩
      have hlen : (List.drop m xs).length < k := by
        simp only [List.length_drop, List.length_cons] at *; omega
      simp only [readAllLoop, limitedBufferReader.Read, Body.Read, hm, List.take_succ_cons,
        List.drop_succ_cons]
      rw [ih (List.drop m xs) (buf ++ x :: List.take m xs) hlen]
      simp

theorem ReadAll_limited (b : Body) (n : Nat) (hn : 0 < n) :
    ReadAll (NewLimitedBufferReader b n) = some (b.data, b.err) := by
  unfold ReadAll NewLimitedBufferReader
  have := readAllLoop_eq n hn b.err (b.data.length + 1) b.data [] (by omega)
  simpa using this

theorem digitChar_isDigit (d : Nat) (hd : d < 10) : (digitChar d).isDigit = true := by
  interval_cases d <;> decide

theorem digitChar_toNat (d : Nat) (hd : d < 10) : (digitChar d).toNat - 48 = d := by
  interval_cases d <;> decide

theorem parseLoop_digit (n d : Nat) (hd : d < 10) (hfit : n * 10 + d < 2 ^ 64) (cs : List Char) :
    parseLoop n (digitChar d :: cs) = parseLoop (n * 10 + d) cs := by
  have hfit2 : n * 10 + ((digitChar d).toNat - 48) < 2 ^ 64 := by
    rw [digitChar_toNat d hd]; exact hfit
  rw [parseLoop, if_pos (digitChar_isDigit d hd)]
  simp only
  rw [if_pos hfit2, digitChar_toNat d hd]

theorem parseLoop_formatBits :
    ∀ (fuel u : Nat) (acc : List Char), u < 10 ^ fuel → u < 2 ^ 64 →
      parseLoop 0 (formatBits fuel u acc) = parseLoop u acc := by
  intro fuel
  induction fuel with
  | zero =>
    intro u acc h _
    have : u = 0 := by simpa using h
    subst this
    simp [formatBits]
  | succ k ih =>
    intro u acc h h64
    unfold formatBits
    split
    · rename_i hlt
      have := parseLoop_digit 0 u hlt (by omega) acc
      simpa using this
    · rename_i hge
      have h1 : u / 10 < 10 ^ k := by
        rw [Nat.div_lt_iff_lt_mul (by norm_num)]
        rw [pow_succ] at h
        exact h
      rw [ih (u / 10) _ h1 (by omega)]
      have := parseLoop_digit (u / 10) (u % 10) (Nat.mod_lt _ (by norm_num)) (by omega) acc
      rw [this]
      congr 1
      omega

theorem formatBits_ne_nil (fuel u : Nat) (acc : List Char) (h : 0 < fuel) :
    formatBits fuel u acc ≠ [] := by
  induction fuel generalizing u acc with
  | zero => omega
  | succ k ih =>
    unfold formatBits
    split
    · simp
    · cases k with
      | zero => simp [formatBits]
      | succ j => exact ih _ _ (by omega)

theorem ParseUint_FormatUint (id : Nat) (h : id < 2 ^ 64) : ParseUint (FormatUint id) = some id := by
  unfold ParseUint FormatUint
  have hne := formatBits_ne_nil 20 id [] (by norm_num)
  have hp := parseLoop_formatBits 20 id [] (by omega) h
  simp only [parseLoop] at hp
  split
  · rename_i heq
    exact absurd heq hne
  · exact hp

theorem FormatUint_max : FormatUint (2 ^ 64 - 1) = "18446744073709551615" := by
  decide

theorem FormatUint_zero : FormatUint 0 = "0" := by
  decide

theorem append_slash_inj : ∀ (a b x y : List Char), '/' ∉ a → '/' ∉ b →
    a ++ '/' :: x = b ++ '/' :: y → a = b ∧ x = y := by
  intro a
  induction a with
  | nil =>
    intro b x y _ hb h
    cases b with
    | nil => simpa using h
    | cons c cs =>
      simp only [List.nil_append, List.cons_append, List.cons.injEq] at h
      exact absurd (h.1 ▸ List.mem_cons_self _ _) hb
  | cons c cs ih =>
    intro b x y ha hb h
    cases b with
    | nil =>
      simp only [List.nil_append, List.cons_append, List.cons.injEq] at h
      exact absurd (h.1 ▸ List.mem_cons_self _ _) ha
    | cons d ds =>
      simp only [List.cons_append, List.cons.injEq] at h
      have := ih ds x y (fun hm => ha (List.mem_cons_of_mem _ hm))
        (fun hm => hb (List.mem_cons_of_mem _ hm)) h.2
      exact ⟨by rw [h.1, this.1], this.2⟩

theorem popHandler_fresh_notFound {σ : Type} (h : HttpEntry σ) (req : Request) (s : σ)
    (hbad : (h.messageQueue.Pop (popKey (req.var "topic") (req.var "line")) s).1.2.2 ≠ none ∨
      (h.messageQueue.Pop (popKey (req.var "topic") (req.var "line")) s).1.2.1 = []) :
    (popHandler h req (Ctx.fresh s)).w = notFoundResponse ∧
      (popHandler h req (Ctx.fresh s)).log = [] := by
  have hc : ((h.messageQueue.Pop (popKey (req.var "topic") (req.var "line")) s).1.2.2.isSome
      || decide ((h.messageQueue.Pop (popKey (req.var "topic") (req.var "line")) s).1.2.1.length
        ≤ 0)) = true := by
    rcases hbad with hb | hb
    · cases hx : (h.messageQueue.Pop (popKey (req.var "topic") (req.var "line")) s).1.2.2 with
      | none => exact absurd hx hb
      | some e => simp
    · simp [hb]
  simp only [popHandler, Ctx.Pop, Ctx.fresh, hc, if_true]
  constructor <;> rfl

theorem popHandler_fresh_ok {σ : Type} (h : HttpEntry σ) (req : Request) (s : σ)
    (herr : (h.messageQueue.Pop (popKey (req.var "topic") (req.var "line")) s).1.2.2 = none)
    (hdata : (h.messageQueue.Pop (popKey (req.var "topic") (req.var "line")) s).1.2.1 ≠ []) :
    (popHandler h req (Ctx.fresh s)).w =
      { header := [("X-UQ-MessageID",
            FormatUint (h.messageQueue.Pop (popKey (req.var "topic") (req.var "line")) s).1.1),
          ("Content-Type", "text/plain")]
        status := some 200
        body := (h.messageQueue.Pop (popKey (req.var "topic") (req.var "line")) s).1.2.1 } ∧
      (popHandler h req (Ctx.fresh s)).log = [] := by
  have hlen : ¬ ((h.messageQueue.Pop (popKey (req.var "topic") (req.var "line")) s).1.2.1.length
      ≤ 0) := by
    intro hl
    exact hdata (List.length_eq_zero.mp (Nat.le_zero.mp hl))
  have hc : ((h.messageQueue.Pop (popKey (req.var "topic") (req.var "line")) s).1.2.2.isSome
      || decide ((h.messageQueue.Pop (popKey (req.var "topic") (req.var "line")) s).1.2.1.length
        ≤ 0)) = false := by
    simp [herr, hdata]
  simp only [popHandler, Ctx.Pop, Ctx.fresh, hc]
  constructor
  · simp [Ctx.Write, Ctx.WriteHeader, Ctx.Set, headerSet, StatusOK]
  · rfl

theorem WriteHeader_calls {σ : Type} (c : Ctx σ) (code : Nat) :
    (c.WriteHeader code).calls = c.calls ∧ (c.WriteHeader code).engine = c.engine ∧
      (c.WriteHeader code).log = c.log := by
  unfold Ctx.WriteHeader
  split <;> exact ⟨rfl, rfl, rfl⟩

theorem Write_calls {σ : Type} (c : Ctx σ) (data : Bytes) :
    (c.Write data).calls = c.calls ∧ (c.Write data).engine = c.engine ∧
      (c.Write data).log = c.log := by
  obtain ⟨h1, h2, h3⟩ := WriteHeader_calls c 200
  exact ⟨h1, h2, h3⟩

theorem httpError_calls {σ : Type} (c : Ctx σ) (error : String) (code : Nat) :
    (httpError c error code).calls = c.calls ∧ (httpError c error code).engine = c.engine ∧
      (httpError c error code).log = c.log := by
  unfold httpError
  obtain ⟨h1, h2, h3⟩ := Write_calls
    (((c.Set "Content-Type" "text/plain; charset=utf-8").Set "X-Content-Type-Options"
      "nosniff").WriteHeader code) (stringBytes (error ++ "\n"))
  obtain ⟨k1, k2, k3⟩ := WriteHeader_calls
    ((c.Set "Content-Type" "text/plain; charset=utf-8").Set "X-Content-Type-Options" "nosniff")
    code
  exact ⟨h1.trans k1, h2.trans k2, h3.trans k3⟩

/-! ## popHandler -/

/-- C1, as amended: when the engine's Pop returns a nil error and a payload
that is not empty, the response of popHandler has status 200, its body is the
payload byte for byte, its X-UQ-MessageID header is the base-10 text of the id,
and parsing that header as an unsigned 64-bit decimal gives the id back. -/
theorem popHandler_success {σ : Type} (h : HttpEntry σ) (req : Request) (s : σ)
    (id : Nat) (data : Bytes) (hid : id < 2 ^ 64)
    (hpop : (h.messageQueue.Pop (popKey (req.var "topic") (req.var "line")) s).1
      = (id, data, none))
    (hdata : data ≠ []) :
    (popHandler h req (Ctx.fresh s)).w.status = some 200 ∧
      (popHandler h req (Ctx.fresh s)).w.body = data ∧
      headerGet (popHandler h req (Ctx.fresh s)).w.header "X-UQ-MessageID"
        = some (FormatUint id) ∧
      (headerGet (popHandler h req (Ctx.fresh s)).w.header "X-UQ-MessageID").bind ParseUint
        = some id := by
  have herr : (h.messageQueue.Pop (popKey (req.var "topic") (req.var "line")) s).1.2.2 = none := by
    rw [hpop]
  have hd : (h.messageQueue.Pop (popKey (req.var "topic") (req.var "line")) s).1.2.1 ≠ [] := by
    rw [hpop]; exact hdata
  have hw := (popHandler_fresh_ok h req s herr hd).1
  rw [hw, hpop]
  refine ⟨rfl, rfl, ?_, ?_⟩
  · simp [headerGet]
  · simp [headerGet, ParseUint_FormatUint id hid]

/-- Witness of C1 as amended: the engine returns id 7 with the payload `[104, 105]`. -/
theorem popHandler_success_witness :
    (popHandler (NewHttpEntry 1024 (fixedQueue none (7, [104, 105], none))) (fooRequest [])
        (Ctx.fresh 0)).w.status = some 200 ∧
      (popHandler (NewHttpEntry 1024 (fixedQueue none (7, [104, 105], none))) (fooRequest [])
        (Ctx.fresh 0)).w.body = [104, 105] ∧
      headerGet (popHandler (NewHttpEntry 1024 (fixedQueue none (7, [104, 105], none)))
        (fooRequest []) (Ctx.fresh 0)).w.header "X-UQ-MessageID" = some (FormatUint 7) ∧
      (headerGet (popHandler (NewHttpEntry 1024 (fixedQueue none (7, [104, 105], none)))
        (fooRequest []) (Ctx.fresh 0)).w.header "X-UQ-MessageID").bind ParseUint = some 7 :=
  popHandler_success (NewHttpEntry 1024 (fixedQueue none (7, [104, 105], none))) (fooRequest [])
    0 7 [104, 105] (by norm_num) rfl (by simp)

/-- C1 as stated fails: the engine's Pop returns id 7, an empty payload and a
nil error, and popHandler answers 404 with no X-UQ-MessageID header. -/
theorem popHandler_nil_error_empty_payload_404 :
    ((fixedQueue none (7, [], none)).Pop (popKey "foo" "x") 0).1 = (7, [], none) ∧
      (popHandler (NewHttpEntry 1024 (fixedQueue none (7, [], none))) (fooRequest [])
        (Ctx.fresh 0)).w.status = some 404 ∧
      headerGet (popHandler (NewHttpEntry 1024 (fixedQueue none (7, [], none))) (fooRequest [])
        (Ctx.fresh 0)).w.header "X-UQ-MessageID" = none := by
  refine ⟨rfl, ?_, ?_⟩
  · rw [(popHandler_fresh_notFound _ _ _ (Or.inr rfl)).1]; rfl
  · rw [(popHandler_fresh_notFound _ _ _ (Or.inr rfl)).1]; decide

/-- C2: popHandler makes exactly one engine call, the Pop whose key is the
topic variable, then "/", then the line variable; the engine state after the
handler is the state that this Pop returned. -/
theorem popHandler_calls_pop_once {σ : Type} (h : HttpEntry σ) (req : Request) (c : Ctx σ) :
    (popHandler h req c).calls
        = c.calls ++ [EngineCall.Pop (req.var "topic" ++ "/" ++ req.var "line")] ∧
      (popHandler h req c).engine
        = (h.messageQueue.Pop (req.var "topic" ++ "/" ++ req.var "line") c.engine).2 := by
  unfold popHandler
  simp only
  split
  · obtain ⟨h1, h2, _⟩ := httpError_calls
      (c.Pop h.messageQueue (popKey (req.var "topic") (req.var "line"))).2
      "404 Not Found!" StatusNotFound
    exact ⟨h1, h2⟩
  · obtain ⟨h1, h2, _⟩ := Write_calls
      ((((c.Pop h.messageQueue (popKey (req.var "topic") (req.var "line"))).2.Set
        "Content-Type" "text/plain").Set "X-UQ-MessageID"
        (FormatUint (c.Pop h.messageQueue (popKey (req.var "topic") (req.var "line"))).1.1)
        ).WriteHeader StatusOK)
      (c.Pop h.messageQueue (popKey (req.var "topic") (req.var "line"))).1.2.1
    obtain ⟨k1, k2, _⟩ := WriteHeader_calls
      (((c.Pop h.messageQueue (popKey (req.var "topic") (req.var "line"))).2.Set
        "Content-Type" "text/plain").Set "X-UQ-MessageID"
        (FormatUint (c.Pop h.messageQueue (popKey (req.var "topic") (req.var "line"))).1.1))
      StatusOK
    exact ⟨h1.trans k1, h2.trans k2⟩

/-- C8: popHandler answers 404 exactly when Pop returns an error or an empty
payload; the 404 response is one fixed response, whatever the error, without
X-UQ-MessageID header and with the fixed text as body; in every other case the
status is 200; and popHandler logs nothing. -/
theorem popHandler_404_iff {σ : Type} (h : HttpEntry σ) (req : Request) (s : σ) :
    ((popHandler h req (Ctx.fresh s)).w.status = some 404 ↔
        ((h.messageQueue.Pop (popKey (req.var "topic") (req.var "line")) s).1.2.2 ≠ none ∨
          (h.messageQueue.Pop (popKey (req.var "topic") (req.var "line")) s).1.2.1.length = 0)) ∧
      ((popHandler h req (Ctx.fresh s)).w.status = some 404 →
        (popHandler h req (Ctx.fresh s)).w = notFoundResponse ∧
        headerGet (popHandler h req (Ctx.fresh s)).w.header "X-UQ-MessageID" = none ∧
        (popHandler h req (Ctx.fresh s)).w.body = stringBytes "404 Not Found!\n") ∧
      ((popHandler h req (Ctx.fresh s)).w.status ≠ some 404 →
        (popHandler h req (Ctx.fresh s)).w.status = some 200) ∧
      (popHandler h req (Ctx.fresh s)).log = [] := by
  by_cases hbad : (h.messageQueue.Pop (popKey (req.var "topic") (req.var "line")) s).1.2.2 ≠ none ∨
      (h.messageQueue.Pop (popKey (req.var "topic") (req.var "line")) s).1.2.1 = []
  · obtain ⟨hw, hl⟩ := popHandler_fresh_notFound h req s hbad
    have hbad2 : (h.messageQueue.Pop (popKey (req.var "topic") (req.var "line")) s).1.2.2 ≠ none ∨
        (h.messageQueue.Pop (popKey (req.var "topic") (req.var "line")) s).1.2.1.length = 0 :=
      hbad.imp id (fun hx => by rw [hx]; rfl)
    rw [hw, hl]
    refine ⟨⟨fun _ => hbad2, fun _ => rfl⟩, fun _ => ⟨rfl, by decide, rfl⟩, ?_, rfl⟩
    intro hne
    exact absurd rfl hne
  · have herr : (h.messageQueue.Pop (popKey (req.var "topic") (req.var "line")) s).1.2.2 = none := by
      by_contra hx; exact hbad (Or.inl hx)
    have hd : (h.messageQueue.Pop (popKey (req.var "topic") (req.var "line")) s).1.2.1 ≠ [] :=
      fun hx => hbad (Or.inr hx)
    obtain ⟨hw, hl⟩ := popHandler_fresh_ok h req s herr hd
    have hbad2 : ¬ ((h.messageQueue.Pop (popKey (req.var "topic") (req.var "line")) s).1.2.2 ≠ none ∨
        (h.messageQueue.Pop (popKey (req.var "topic") (req.var "line")) s).1.2.1.length = 0) := by
      rintro (hx | hx)
      · exact hx herr
      · exact hd (List.length_eq_zero.mp hx)
    rw [hw, hl]
    refine ⟨⟨fun hx => ?_, fun hx => absurd hx hbad2⟩, fun hx => ?_, fun _ => rfl, rfl⟩
    · simp at hx
    · simp at hx

/-- C10: for topics without "/", the key popHandler builds determines the
topic and the line. -/
theorem popKey_injective (t t1 l l1 : String) (ht : '/' ∉ t.data) (ht1 : '/' ∉ t1.data)
    (hkey : popKey t l = popKey t1 l1) : t = t1 ∧ l = l1 := by
  have hd : t.data ++ '/' :: l.data = t1.data ++ '/' :: l1.data := by
    have := congrArg String.data hkey
    simpa [popKey, String.data_append] using this
  obtain ⟨h1, h2⟩ := append_slash_inj _ _ _ _ ht ht1 hd
  exact ⟨String.ext h1, String.ext h2⟩

/-- Witness of C10 at the topic `foo` and the line `x`. -/
theorem popKey_injective_witness :
    '/' ∉ "foo".data ∧ popKey "foo" "x" = "foo/x" ∧ ("foo" = "foo" ∧ "x" = "x") :=
  ⟨by decide, by decide, popKey_injective "foo" "foo" "x" "x" (by decide) (by decide) rfl⟩

theorem popKey_collides_with_slash : popKey "a/b" "c" = popKey "a" "b/c" ∧ "a/b" ≠ "a" := by
  decide

/-! ## createHandler, pushHandler, confirmHandler -/

theorem pushHandler_read_ok {σ : Type} (h : HttpEntry σ) (req : Request) (c : Ctx σ)
    (hn : 0 < h.maxBodyLength) (hbody : req.body.err = none) :
    pushHandler h req c =
      match (c.Push h.messageQueue (req.var "topic") req.body.data).1 with
      | some e =>
        some (httpError ((c.Push h.messageQueue (req.var "topic") req.body.data).2.Printf
          ("push error: " ++ e.text)) "500 Bad Request!" StatusInternalServerError)
      | none =>
        some ((c.Push h.messageQueue (req.var "topic") req.body.data).2.WriteHeader
          StatusNoContent) := by
  simp only [pushHandler, ReadAll_limited _ _ hn, hbody]
  rfl

theorem createHandler_read_ok {σ : Type} (js : Json) (h : HttpEntry σ) (req : Request) (c : Ctx σ)
    (hn : 0 < h.maxBodyLength) (hbody : req.body.err = none) :
    createHandler js h req c =
      match js.UnmarshalCreate req.body.data with
      | Except.error e =>
        some (httpError (c.Printf ("create error: " ++ e.text)) "400 Bad Request!"
          StatusBadRequest)
      | Except.ok cr =>
        match (c.Create h.messageQueue cr).1 with
        | some e =>
          some (httpError ((c.Create h.messageQueue cr).2.Printf ("create error: " ++ e.text))
            "500 Bad Request!" StatusInternalServerError)
        | none => some ((c.Create h.messageQueue cr).2.WriteHeader StatusNoContent) := by
  simp only [createHandler, ReadAll_limited _ _ hn, hbody]
  rfl

theorem confirmHandler_read_ok {σ : Type} (js : Json) (h : HttpEntry σ) (req : Request)
    (c : Ctx σ) (hn : 0 < h.maxBodyLength) (hbody : req.body.err = none) :
    confirmHandler js h req c =
      match js.UnmarshalConfirm req.body.data with
      | Except.error e =>
        some (httpError (c.Printf ("confirm error: " ++ e.text)) "400 Bad Request!"
          StatusBadRequest)
      | Except.ok cr =>
        match (c.Confirm h.messageQueue cr).1 with
        | some e =>
          some (httpError ((c.Confirm h.messageQueue cr).2.Printf ("confirm error: " ++ e.text))
            "500 Bad Request!" StatusInternalServerError)
        | none => some ((c.Confirm h.messageQueue cr).2.WriteHeader StatusNoContent) := by
  simp only [confirmHandler, ReadAll_limited _ _ hn, hbody]
  rfl

theorem createHandler_read_error {σ : Type} (js : Json) (h : HttpEntry σ) (req : Request)
    (c : Ctx σ) (hn : 0 < h.maxBodyLength) (e : GoError) (hbody : req.body.err = some e) :
    createHandler js h req c = some (httpError c "400 Bad Request!" StatusBadRequest) := by
  simp only [createHandler, ReadAll_limited _ _ hn, hbody]
  rfl

theorem confirmHandler_read_error {σ : Type} (js : Json) (h : HttpEntry σ) (req : Request)
    (c : Ctx σ) (hn : 0 < h.maxBodyLength) (e : GoError) (hbody : req.body.err = some e) :
    confirmHandler js h req c = some (httpError c "400 Bad Request!" StatusBadRequest) := by
  simp only [confirmHandler, ReadAll_limited _ _ hn, hbody]
  rfl

theorem httpError_fresh_w {σ : Type} (s : σ) (calls : List EngineCall) (log : List String)
    (error : String) (code : Nat) :
    (httpError
        { engine := s, calls := calls, log := log, w := { header := [], status := none, body := [] } }
        error code).w =
      { header := [("X-Content-Type-Options", "nosniff"),
          ("Content-Type", "text/plain; charset=utf-8")]
        status := some code
        body := stringBytes (error ++ "\n") } := by
  simp [httpError, Ctx.Write, Ctx.WriteHeader, Ctx.Set, headerSet]

/-- C3: when the body is read without error, pushHandler makes exactly one
engine call, the Push of the topic variable with every byte of the body in
order, the empty body included; the engine state after the handler is the one
this Push returned. -/
theorem pushHandler_pushes_body_once {σ : Type} (h : HttpEntry σ) (req : Request) (c : Ctx σ)
    (hn : 0 < h.maxBodyLength) (hbody : req.body.err = none) :
    ∃ c1, pushHandler h req c = some c1 ∧
      c1.calls = c.calls ++ [EngineCall.Push (req.var "topic") req.body.data] ∧
      c1.engine = (h.messageQueue.Push (req.var "topic") req.body.data c.engine).2 := by
  rw [pushHandler_read_ok h req c hn hbody]
  split
  · refine ⟨_, rfl, ?_, ?_⟩
    · exact (httpError_calls _ _ _).1
    · exact (httpError_calls _ _ _).2.1
  · refine ⟨_, rfl, ?_, ?_⟩
    · exact (WriteHeader_calls _ _).1
    · exact (WriteHeader_calls _ _).2.1

/-- Witness of C3 at the empty body. -/
theorem pushHandler_pushes_body_once_witness :
    ∃ c1, pushHandler (NewHttpEntry 1024 (fixedQueue none (0, [], none))) (fooRequest [])
        (Ctx.fresh 0) = some c1 ∧
      c1.calls = (Ctx.fresh 0).calls ++ [EngineCall.Push ((fooRequest []).var "topic") []] ∧
      c1.engine = ((fixedQueue none (0, [], none)).Push ((fooRequest []).var "topic") [] 0).2 :=
  pushHandler_pushes_body_once (NewHttpEntry 1024 (fixedQueue none (0, [], none)))
    (fooRequest []) (Ctx.fresh 0) (by decide) rfl

/-- C4: for createHandler, pushHandler and confirmHandler, when the body is
read without error, decoded without error (create and confirm) and the engine
call returns a nil error, the status is 204 and the body has no byte. -/
theorem handlers_success_no_content {σ : Type} (js : Json) (h : HttpEntry σ) (req : Request)
    (s : σ) (hn : 0 < h.maxBodyLength) (hbody : req.body.err = none) :
    (∀ cr, js.UnmarshalCreate req.body.data = Except.ok cr →
        (h.messageQueue.Create cr s).1 = none →
        ∃ c1, createHandler js h req (Ctx.fresh s) = some c1 ∧
          c1.w.status = some 204 ∧ c1.w.body = []) ∧
      ((h.messageQueue.Push (req.var "topic") req.body.data s).1 = none →
        ∃ c1, pushHandler h req (Ctx.fresh s) = some c1 ∧
          c1.w.status = some 204 ∧ c1.w.body = []) ∧
      (∀ cr, js.UnmarshalConfirm req.body.data = Except.ok cr →
        (h.messageQueue.Confirm cr s).1 = none →
        ∃ c1, confirmHandler js h req (Ctx.fresh s) = some c1 ∧
          c1.w.status = some 204 ∧ c1.w.body = []) := by
  refine ⟨?_, ?_, ?_⟩
  · intro cr hdec hok
    rw [createHandler_read_ok js h req _ hn hbody, hdec]
    simp only [Ctx.Create, Ctx.fresh, hok]
    exact ⟨_, rfl, rfl, rfl⟩
  · intro hok
    rw [pushHandler_read_ok h req _ hn hbody]
    simp only [Ctx.Push, Ctx.fresh, hok]
    exact ⟨_, rfl, rfl, rfl⟩
  · intro cr hdec hok
    rw [confirmHandler_read_ok js h req _ hn hbody, hdec]
    simp only [Ctx.Confirm, Ctx.fresh, hok]
    exact ⟨_, rfl, rfl, rfl⟩

/-- Witness of C4: empty body, a decoder that accepts it, an engine that returns nil. -/
theorem handlers_success_no_content_witness :
    (∃ c1, createHandler emptyOnlyJson (NewHttpEntry 1024 (fixedQueue none (0, [], none)))
        (fooRequest []) (Ctx.fresh 0) = some c1 ∧ c1.w.status = some 204 ∧ c1.w.body = []) ∧
      (∃ c1, pushHandler (NewHttpEntry 1024 (fixedQueue none (0, [], none)))
        (fooRequest []) (Ctx.fresh 0) = some c1 ∧ c1.w.status = some 204 ∧ c1.w.body = []) ∧
      (∃ c1, confirmHandler emptyOnlyJson (NewHttpEntry 1024 (fixedQueue none (0, [], none)))
        (fooRequest []) (Ctx.fresh 0) = some c1 ∧ c1.w.status = some 204 ∧ c1.w.body = []) :=
  ⟨(handlers_success_no_content emptyOnlyJson (NewHttpEntry 1024 (fixedQueue none (0, [], none)))
      (fooRequest []) 0 (by decide) rfl).1 _ rfl rfl,
    (handlers_success_no_content emptyOnlyJson (NewHttpEntry 1024 (fixedQueue none (0, [], none)))
      (fooRequest []) 0 (by decide) rfl).2.1 rfl,
    (handlers_success_no_content emptyOnlyJson (NewHttpEntry 1024 (fixedQueue none (0, [], none)))
      (fooRequest []) 0 (by decide) rfl).2.2 _ rfl rfl⟩

theorem createHandler_engine_error {σ : Type} (js : Json) (h : HttpEntry σ) (req : Request)
    (s : σ) (hn : 0 < h.maxBodyLength) (hbody : req.body.err = none) (cr : CreateRequest)
    (hdec : js.UnmarshalCreate req.body.data = Except.ok cr) (e : GoError)
    (herr : (h.messageQueue.Create cr s).1 = some e) :
    ∃ c1, createHandler js h req (Ctx.fresh s) = some c1 ∧ c1.w = internalErrorResponse ∧
      c1.log = ["create error: " ++ e.text] := by
  rw [createHandler_read_ok js h req _ hn hbody, hdec]
  simp only [Ctx.Create, Ctx.fresh, herr, Ctx.Printf]
  refine ⟨_, rfl, httpError_fresh_w _ _ _ _ _, ?_⟩
  rw [(httpError_calls _ _ _).2.2]
  rfl

theorem pushHandler_engine_error {σ : Type} (h : HttpEntry σ) (req : Request)
    (s : σ) (hn : 0 < h.maxBodyLength) (hbody : req.body.err = none) (e : GoError)
    (herr : (h.messageQueue.Push (req.var "topic") req.body.data s).1 = some e) :
    ∃ c1, pushHandler h req (Ctx.fresh s) = some c1 ∧ c1.w = internalErrorResponse ∧
      c1.log = ["push error: " ++ e.text] := by
  rw [pushHandler_read_ok h req _ hn hbody]
  simp only [Ctx.Push, Ctx.fresh, herr, Ctx.Printf]
  refine ⟨_, rfl, httpError_fresh_w _ _ _ _ _, ?_⟩
  rw [(httpError_calls _ _ _).2.2]
  rfl

theorem confirmHandler_engine_error {σ : Type} (js : Json) (h : HttpEntry σ) (req : Request)
    (s : σ) (hn : 0 < h.maxBodyLength) (hbody : req.body.err = none) (cr : ConfirmRequest)
    (hdec : js.UnmarshalConfirm req.body.data = Except.ok cr) (e : GoError)
    (herr : (h.messageQueue.Confirm cr s).1 = some e) :
    ∃ c1, confirmHandler js h req (Ctx.fresh s) = some c1 ∧ c1.w = internalErrorResponse ∧
      c1.log = ["confirm error: " ++ e.text] := by
  rw [confirmHandler_read_ok js h req _ hn hbody, hdec]
  simp only [Ctx.Confirm, Ctx.fresh, herr, Ctx.Printf]
  refine ⟨_, rfl, httpError_fresh_w _ _ _ _ _, ?_⟩
  rw [(httpError_calls _ _ _).2.2]
  rfl

/-- C5, as amended: when the engine's Create, Push or Confirm returns an error
e, the handler writes e's text to the log only, after its own prefix, and the
HTTP response is the fixed response of status 500 with the text
"500 Bad Request!", the same for every engine error. -/
theorem handlers_engine_error_logged_fixed_500 {σ : Type} (js : Json) (h : HttpEntry σ)
    (req : Request) (s : σ) (e : GoError) (hn : 0 < h.maxBodyLength)
    (hbody : req.body.err = none) :
    (∀ cr, js.UnmarshalCreate req.body.data = Except.ok cr →
        (h.messageQueue.Create cr s).1 = some e →
        ∃ c1, createHandler js h req (Ctx.fresh s) = some c1 ∧ c1.w = internalErrorResponse ∧
          c1.log = ["create error: " ++ e.text]) ∧
      ((h.messageQueue.Push (req.var "topic") req.body.data s).1 = some e →
        ∃ c1, pushHandler h req (Ctx.fresh s) = some c1 ∧ c1.w = internalErrorResponse ∧
          c1.log = ["push error: " ++ e.text]) ∧
      (∀ cr, js.UnmarshalConfirm req.body.data = Except.ok cr →
        (h.messageQueue.Confirm cr s).1 = some e →
        ∃ c1, confirmHandler js h req (Ctx.fresh s) = some c1 ∧ c1.w = internalErrorResponse ∧
          c1.log = ["confirm error: " ++ e.text]) :=
  ⟨fun cr hdec herr => createHandler_engine_error js h req s hn hbody cr hdec e herr,
    fun herr => pushHandler_engine_error h req s hn hbody e herr,
    fun cr hdec herr => confirmHandler_engine_error js h req s hn hbody cr hdec e herr⟩

/-- Witness of C5 as amended: the engine answers every call with the error
"topic not found". -/
theorem handlers_engine_error_logged_fixed_500_witness :
    ∃ c1, pushHandler (NewHttpEntry 1024 (fixedQueue (some { text := "topic not found" })
        (0, [], none))) (fooRequest [104, 105]) (Ctx.fresh 0) = some c1 ∧
      c1.w = internalErrorResponse ∧ c1.log = ["push error: " ++ "topic not found"] :=
  (handlers_engine_error_logged_fixed_500 emptyOnlyJson
    (NewHttpEntry 1024 (fixedQueue (some { text := "topic not found" }) (0, [], none)))
    (fooRequest [104, 105]) 0 { text := "topic not found" } (by decide) rfl).2.1 rfl

/-- C5 as stated fails: two different engine errors returned by Push give the
same response, whose body is the fixed text and not the error's. -/
theorem pushHandler_two_errors_same_response :
    ({ text := "topic not found" } : GoError) ≠ { text := "line exists" } ∧
      (∃ c1 c2,
        pushHandler (NewHttpEntry 1024 (fixedQueue (some { text := "topic not found" })
          (0, [], none))) (fooRequest [104, 105]) (Ctx.fresh 0) = some c1 ∧
        pushHandler (NewHttpEntry 1024 (fixedQueue (some { text := "line exists" })
          (0, [], none))) (fooRequest [104, 105]) (Ctx.fresh 0) = some c2 ∧
        c1.w = c2.w ∧ c1.w.body = stringBytes "500 Bad Request!\n") := by
  refine ⟨by decide, ?_⟩
  obtain ⟨c1, h1, w1, _⟩ := pushHandler_engine_error
    (NewHttpEntry 1024 (fixedQueue (some { text := "topic not found" }) (0, [], none)))
    (fooRequest [104, 105]) 0 (by decide) rfl { text := "topic not found" } rfl
  obtain ⟨c2, h2, w2, _⟩ := pushHandler_engine_error
    (NewHttpEntry 1024 (fixedQueue (some { text := "line exists" }) (0, [], none)))
    (fooRequest [104, 105]) 0 (by decide) rfl { text := "line exists" } rfl
  exact ⟨c1, c2, h1, h2, w1.trans w2.symm, by rw [w1]; rfl⟩

/-- C6: when the body does not decode into a CreateRequest (createHandler) or a
ConfirmRequest (confirmHandler), the handler answers 400, makes no engine call
and leaves the engine state as it was. -/
theorem handlers_decode_error_400 {σ : Type} (js : Json) (h : HttpEntry σ) (req : Request)
    (s : σ) (hn : 0 < h.maxBodyLength) :
    (∀ e, js.UnmarshalCreate req.body.data = Except.error e →
        ∃ c1, createHandler js h req (Ctx.fresh s) = some c1 ∧ c1.w.status = some 400 ∧
          c1.calls = [] ∧ c1.engine = s) ∧
      (∀ e, js.UnmarshalConfirm req.body.data = Except.error e →
        ∃ c1, confirmHandler js h req (Ctx.fresh s) = some c1 ∧ c1.w.status = some 400 ∧
          c1.calls = [] ∧ c1.engine = s) := by
  constructor
  · intro e hdec
    cases hb : req.body.err with
    | none =>
      rw [createHandler_read_ok js h req _ hn hb, hdec]
      refine ⟨_, rfl, ?_, (httpError_calls _ _ _).1, (httpError_calls _ _ _).2.1⟩
      simp only [Ctx.fresh, Ctx.Printf, httpError_fresh_w]
      rfl
    | some e1 =>
      rw [createHandler_read_error js h req _ hn e1 hb]
      refine ⟨_, rfl, ?_, (httpError_calls _ _ _).1, (httpError_calls _ _ _).2.1⟩
      simp only [Ctx.fresh, httpError_fresh_w]
      rfl
  · intro e hdec
    cases hb : req.body.err with
    | none =>
      rw [confirmHandler_read_ok js h req _ hn hb, hdec]
      refine ⟨_, rfl, ?_, (httpError_calls _ _ _).1, (httpError_calls _ _ _).2.1⟩
      simp only [Ctx.fresh, Ctx.Printf, httpError_fresh_w]
      rfl
    | some e1 =>
      rw [confirmHandler_read_error js h req _ hn e1 hb]
      refine ⟨_, rfl, ?_, (httpError_calls _ _ _).1, (httpError_calls _ _ _).2.1⟩
      simp only [Ctx.fresh, httpError_fresh_w]
      rfl

/-- Witness of C6: the body `[123]` (an opening brace alone), which the decoder rejects. -/
theorem handlers_decode_error_400_witness :
    (∃ c1, createHandler emptyOnlyJson (NewHttpEntry 1024 (fixedQueue none (0, [], none)))
        (fooRequest [123]) (Ctx.fresh 0) = some c1 ∧ c1.w.status = some 400 ∧
        c1.calls = [] ∧ c1.engine = 0) ∧
      (∃ c1, confirmHandler emptyOnlyJson (NewHttpEntry 1024 (fixedQueue none (0, [], none)))
        (fooRequest [123]) (Ctx.fresh 0) = some c1 ∧ c1.w.status = some 400 ∧
        c1.calls = [] ∧ c1.engine = 0) :=
  ⟨(handlers_decode_error_400 emptyOnlyJson (NewHttpEntry 1024 (fixedQueue none (0, [], none)))
      (fooRequest [123]) 0 (by decide)).1 _ rfl,
    (handlers_decode_error_400 emptyOnlyJson (NewHttpEntry 1024 (fixedQueue none (0, [], none)))
      (fooRequest [123]) 0 (by decide)).2 _ rfl⟩

theorem limitedBufferReader_Read_length (lr : limitedBufferReader) (k : Nat) :
    (lr.Read k).1.1.length ≤ lr.n := by
  unfold limitedBufferReader.Read Body.Read
  simp only
  split
  · split <;> simp
  · split
    · exact (List.length_take_le _ _)
    · exact (List.length_take_le _ _).trans (by omega)

/-- C7, the code at a body longer than the limit: for every positive limit M
given to NewLimitedBufferReader, pushHandler on a body of M + 1 bytes calls
Push with all M + 1 bytes. The limit bounds each Read, not the bytes ReadAll
gathers. -/
theorem pushHandler_payload_exceeds_limit {σ : Type} (M : Nat) (mq : MessageQueue σ) (s : σ)
    (hM : 0 < M) :
    ∃ c1, pushHandler (NewHttpEntry M mq) (fooRequest (List.replicate (M + 1) 0))
        (Ctx.fresh s) = some c1 ∧
      c1.calls = [EngineCall.Push "foo" (List.replicate (M + 1) 0)] ∧
      (NewHttpEntry M mq).maxBodyLength < (List.replicate (M + 1) (0 : UInt8)).length := by
  rw [pushHandler_read_ok (NewHttpEntry M mq) _ _ hM rfl]
  split
  · refine ⟨_, rfl, ?_, ?_⟩
    · rw [(httpError_calls _ _ _).1]; rfl
    · simp [NewHttpEntry]
  · refine ⟨_, rfl, ?_, ?_⟩
    · rw [(WriteHeader_calls _ _).1]; rfl
    · simp [NewHttpEntry]

/-- C7 at the limit 4: a body of five bytes reaches Push whole. -/
theorem pushHandler_payload_exceeds_limit_witness :
    ∃ c1, pushHandler (NewHttpEntry 4 (fixedQueue none (0, [], none)))
        (fooRequest (List.replicate (4 + 1) 0)) (Ctx.fresh 0) = some c1 ∧
      c1.calls = [EngineCall.Push "foo" (List.replicate (4 + 1) 0)] ∧
      (NewHttpEntry 4 (fixedQueue none (0, [], none))).maxBodyLength
        < (List.replicate (4 + 1) (0 : UInt8)).length :=
  pushHandler_payload_exceeds_limit 4 (fixedQueue none (0, [], none)) 0 (by decide)

/-! ## main -/

theorem main_leveldb_ok {S Q : Type} (env : Boot S Q) (f : Flags) (st : S)
    (hdb : f.db = "leveldb") (hst : env.NewLevelStore (env.dbpath f.dir) = (some st, none)) :
    BootEvent.NewUnitedQueue (some st) ∈ (main env f).1 := by
  simp only [main, hdb, if_true, hst]
  split <;> simp

theorem main_memdb_ok {S Q : Type} (env : Boot S Q) (f : Flags) (st : S)
    (hdb : f.db = "memdb") (hst : env.NewMemStore = (some st, none)) :
    BootEvent.NewUnitedQueue (some st) ∈ (main env f).1 := by
  have hne : ¬ ("memdb" = "leveldb") := by decide
  simp only [main, hdb, hne, if_true, if_false, hst]
  split <;> simp

/-- C9, the code at a db flag that is neither "leveldb" nor "memdb": main
creates no storage, prints no store init error, and calls NewUnitedQueue with a
nil storage as the first thing after the start message. -/
theorem main_other_db_nil_storage {S Q : Type} (env : Boot S Q) (f : Flags)
    (h1 : f.db ≠ "leveldb") (h2 : f.db ≠ "memdb") :
    ∃ rest, (main env f).1 =
      [BootEvent.fmtPrintf "uq started! 😄\n", BootEvent.NewUnitedQueue none] ++ rest := by
  simp only [main, h1, h2, if_false]
  split
  · exact ⟨_, rfl⟩
  · exact ⟨[], rfl⟩

/-- C9 at the flag value `-db=redis`. -/
theorem main_other_db_nil_storage_witness :
    ∃ rest, (main demoBoot (defaultFlags "redis")).1 =
      [BootEvent.fmtPrintf "uq started! 😄\n", BootEvent.NewUnitedQueue none] ++ rest :=
  main_other_db_nil_storage demoBoot (defaultFlags "redis") (by decide) (by decide)

end UQ
